import Mathlib

/-!
Shallow embedding of `src/proto.js` of the `model` repository: a record
mixin with attribute storage, dirty tracking, validation, and
save/update/destroy persistence over an HTTP transport.

JavaScript values stored in the attribute map are modelled by `Value`;
a missing attribute, as well as the JavaScript `null`/`undefined`
(which the source's `has` treats uniformly via `null != x`), is
modelled by absence from the association list (`Option Value = none`
on lookup).

The stateful JS methods become pure functions from a `Record` (plus
the environment inputs: the transport response and whether a callback
argument was supplied) to an `Outcome`: the resulting record together
with an ordered trace of observable actions (transport requests, event
emissions, callback invocations), or `thrown` when the code invokes an
`undefined` callback (a JS TypeError).

Validators live on `this.model` in the source; because they are
functions over records they are passed as an explicit list parameter
to `validate`/`isValid`/`save`/`update` to keep the `Record` structure
strictly positive. This changes nothing observable.
-/

/-- A JavaScript value stored in a record attribute. -/
inductive Value where
  | vNum : Int → Value
  | vStr : String → Value
  | vBool : Bool → Value
deriving DecidableEq, Repr

/-- JavaScript string coercion, as used by `url + '/' + id`. -/
def jsToString : Value → String
  | .vNum n => toString n
  | .vStr s => s
  | .vBool b => if b then "true" else "false"

/-- A validation error, as pushed by `exports.error`:
`\x7b attr: attr, message: msg \x7d`. -/
structure Err where
  attr : String
  message : String
deriving DecidableEq, Repr

/-- The schema collaborator (`this.model`): primary-key name, base
resource path, and the collection URL returned by `model.url()`.
The collection URL construction is external to `src/proto.js`
(`this.model.url()` in `save`); it is modelled as a constant field. -/
structure Schema where
  primaryKey : String
  base : String
  collectionUrl : String
deriving DecidableEq, Repr

/-- Lookup in the attribute map (`this.attrs[attr]`); `none` models
`undefined`/`null`/absent. -/
def lookupAttr (attrs : List (String × Value)) (k : String) : Option Value :=
  (attrs.find? (fun p => p.1 == k)).map Prod.snd

/-- Assignment `this.attrs[k] = v`; assigning `none` (undefined) is
modelled as removal, observably equivalent through `get`/`has`. -/
def writeAttr (attrs : List (String × Value)) (k : String) :
    Option Value → List (String × Value)
  | none => attrs.filter (fun p => p.1 ≠ k)
  | some v =>
      if (attrs.find? (fun p => p.1 == k)).isSome then
        attrs.map (fun p => if p.1 == k then (k, v) else p)
      else
        attrs ++ [(k, v)]

/-- Mark an attribute dirty (`this.dirty[k] = val`): JS object keys
are a set in insertion order. -/
def addDirty (d : List String) (k : String) : List String :=
  if k ∈ d then d else d ++ [k]

/-- The mutable state of one record instance. -/
structure Record where
  model : Schema
  attrs : List (String × Value)
  dirty : List String
  errors : List Err
  destroyed : Bool
deriving DecidableEq, Repr

namespace Record

/-- `exports.get`. -/
def get (r : Record) (attr : String) : Option Value :=
  lookupAttr r.attrs attr

/-- `exports.has`: `null != this.attrs[attr]`. -/
def has (r : Record) (attr : String) : Bool :=
  (lookupAttr r.attrs attr).isSome

/-- `exports.isNew`: `! this.has(this.model.primaryKey)`. -/
def isNew (r : Record) : Bool :=
  ! r.has r.model.primaryKey

/-- `exports.error`: push `\x7b attr, message \x7d` onto `this.errors`. -/
def error (r : Record) (attr msg : String) : Record :=
  { r with errors := r.errors ++ [⟨attr, msg⟩] }

/-- Modelled from the spec: the generated per-attribute accessor, used
as a getter (`this[key]()` returns the stored attribute value).
Accessor generation is external to `src/proto.js`; the spec fixes that
the getter reads the Attribute Store. -/
def accessorGet (r : Record) (key : String) : Option Value :=
  lookupAttr r.attrs key

/-- Modelled from the spec: the generated per-attribute accessor used
as a setter (`this[key](val)`): stores the value through the Attribute
Store and marks the attribute dirty in the Dirty Tracker. -/
def accessorSet (r : Record) (key : String) (v : Option Value) : Record :=
  { r with attrs := writeAttr r.attrs key v, dirty := addDirty r.dirty key }

/-- `exports.primary` with no argument: `this[key]()`. -/
def primaryGet (r : Record) : Option Value :=
  r.accessorGet r.model.primaryKey

/-- `exports.primary` with an argument: `this[key](val)`. -/
def primarySet (r : Record) (v : Option Value) : Record :=
  r.accessorSet r.model.primaryKey v

/-- `exports.changed`: the dirty map when non-empty, else `false`
(modelled as `none`). -/
def changed (r : Record) : Option (List String) :=
  if r.dirty.length ≠ 0 then some r.dirty else none

/-- `exports.validate`: reset `this.errors` to `[]`, then run each
validator on the record, in order (`each(fns, function(fn)\x7b fn(self) \x7d)`). -/
def validate (r : Record) (validators : List (Record → Record)) : Record :=
  validators.foldl (fun acc fn => fn acc) { r with errors := [] }

/-- `exports.isValid`: run `validate`, then `0 == this.errors.length`.
Returns the mutated record together with the boolean. -/
def isValidRun (r : Record) (validators : List (Record → Record)) :
    Record × Bool :=
  let r1 := r.validate validators
  (r1, r1.errors.length == 0)

/-- `exports.url`: `model.base + '/' + this.primary()` with an optional
`'/' + path` suffix. A missing primary key stringifies as
`"undefined"`, as JS concatenation does. -/
def url (r : Record) (path : Option String) : String :=
  let base := r.model.base
  let id := match r.primaryGet with
            | some v => jsToString v
            | none => "undefined"
  match path with
  | none => base ++ "/" ++ id
  | some p => base ++ "/" ++ id ++ "/" ++ p

end Record

/-- The parsed JSON response body, as dereferenced by `res.body.id`
in `save`. `id = none` models a body without an `id` field. -/
structure Body where
  id : Option Value
deriving DecidableEq, Repr

/-- The transport response the XHR handler inspects at
`readyState == 4`: the integer status, the raw `Content-Type` header
(possibly absent), and what `JSON.parse(req.responseText)` would
yield — `none` models a parse result that is falsy in JS. -/
structure Response where
  status : Nat
  contentType : Option String
  jsonBody : Option Body
deriving DecidableEq, Repr

/-- Result of `exports.request`: either the handler invokes
`fn(null, req)` (2xx, with `req.body` attached when the content type
is `application/json`), or — the empty `else` branch on non-2xx — it
does nothing at all and the callback is never invoked. -/
inductive ReqResult where
  | callback (err : Option String) (body : Option Body)
  | silent
deriving DecidableEq, Repr

/-- `(...).split(';')[0]`: the characters of the header before the
first semicolon. -/
def takeUntilSemicolon : List Char → List Char
  | [] => []
  | c :: cs => if c = ';' then [] else c :: takeUntilSemicolon cs

/-- `exports.request`, as a function of the response the server sends:
`status = req.status / 100 | 0`; the content type is the header up to
the first `;`; on `2 == status` the body is parsed when the type is
`application/json` and `fn(null, req)` runs; otherwise the `else`
branch is empty and nothing happens. -/
def request (resp : Response) : ReqResult :=
  let status := resp.status / 100
  let type := String.mk (takeUntilSemicolon (resp.contentType.getD "").toList)
  let isJson := type == "application/json"
  if status == 2 then
    .callback none (if isJson then resp.jsonBody else none)
  else
    .silent

/-- An observable action of a persistence operation, in order:
a transport request being issued, an event emission (recording the
`destroyed` flag the listeners observe at emission time), or an
invocation of the (possibly noop-defaulted) completion callback. -/
inductive Act where
  | req (method : String) (url : String)
  | emit (name : String) (destroyedAtEmit : Bool)
  | callback (err : Option String)
deriving DecidableEq, Repr

/-- Outcome of a persistence operation: the resulting record and the
ordered action trace, or a synchronous TypeError from invoking an
`undefined` callback. -/
inductive Outcome where
  | thrown
  | done (r : Record) (trace : List Act)
deriving DecidableEq, Repr

/-- The record an outcome leaves behind, when no throw occurred. -/
def Outcome.recordOf : Outcome → Option Record
  | .thrown => none
  | .done r _ => some r

/-- The action trace of an outcome. -/
def Outcome.traceOf : Outcome → List Act
  | .thrown => []
  | .done _ t => t

/-- Names of the events emitted in a trace. -/
def emitNames (t : List Act) : List String :=
  t.filterMap (fun a => match a with
    | .emit n _ => some n
    | _ => none)

/-- The callback invocations in a trace, with their error arguments. -/
def callbackCalls (t : List Act) : List (Option String) :=
  t.filterMap (fun a => match a with
    | .callback e => some e
    | _ => none)

/-- The transport requests issued in a trace. -/
def requestCalls (t : List Act) : List (String × String) :=
  t.filterMap (fun a => match a with
    | .req m u => some (m, u)
    | _ => none)

namespace Record

/-- `exports.destroy`:
`if (this.isNew()) return fn(new Error('not saved'))` — note this runs
before `fn = fn || noop`, so a missing callback is invoked while still
`undefined` and throws. Otherwise issue `DELETE` against `this.url()`;
on success emit `destroy`, then set `destroyed = true`, then `fn()`. -/
def destroyOp (r : Record) (fnProvided : Bool) (resp : Response) : Outcome :=
  if r.isNew then
    if fnProvided then .done r [.callback (some "not saved")]
    else .thrown
  else
    let url := r.url none
    match request resp with
    | .silent => .done r [.req "DELETE" url]
    | .callback err _ =>
      match err with
      | some e => .done r [.req "DELETE" url, .callback (some e)]
      | none =>
        let r2 := { r with destroyed := true }
        .done r2 [.req "DELETE" url,
                  .emit "destroy" r.destroyed,
                  .callback none]

/-- `exports.update`: compute `this.url()`, default the callback, run
`isValid` (rebuilding `errors`); on invalid call back with a
validation error and no transport call; otherwise issue `PUT`; on
success clear `dirty`, emit `update`, call back with no error. -/
def updateOp (r : Record) (validators : List (Record → Record))
    (fnProvided : Bool) (resp : Response) : Outcome :=
  let url := r.url none
  let _ := fnProvided
  let r1 := r.validate validators
  if r1.errors.length != 0 then
    .done r1 [.callback (some "validation failed")]
  else
    match request resp with
    | .silent => .done r1 [.req "PUT" url]
    | .callback err _ =>
      match err with
      | some e => .done r1 [.req "PUT" url, .callback (some e)]
      | none =>
        let r2 := { r1 with dirty := [] }
        .done r2 [.req "PUT" url, .emit "update" r2.destroyed, .callback none]

/-- `exports.save`: `if (!this.isNew()) return this.update(fn)`;
otherwise default the callback, validate, and on valid issue `POST`
against `this.model.url()`; on success set the primary key from
`res.body.id` when a (truthy) body is present, clear `dirty`, emit
`save`, call back with no error. -/
def saveOp (r : Record) (validators : List (Record → Record))
    (fnProvided : Bool) (resp : Response) : Outcome :=
  if ! r.isNew then r.updateOp validators fnProvided resp
  else
    let url := r.model.collectionUrl
    let _ := fnProvided
    let r1 := r.validate validators
    if r1.errors.length != 0 then
      .done r1 [.callback (some "validation failed")]
    else
      match request resp with
      | .silent => .done r1 [.req "POST" url]
      | .callback err body =>
        match err with
        | some e => .done r1 [.req "POST" url, .callback (some e)]
        | none =>
          let r2 := match body with
                    | some b => r1.primarySet b.id
                    | none => r1
          let r3 := { r2 with dirty := [] }
          .done r3 [.req "POST" url, .emit "save" r3.destroyed, .callback none]

end Record

/-! ## Concrete fixtures used by witnesses and counterexamples -/

/-- A schema with primary key `id` and base path `/users`; the
collection URL used by `save`'s `POST` is also `/users`. -/
def schemaUsers : Schema :=
  { primaryKey := "id", base := "/users", collectionUrl := "/users" }

/-- A never-saved record: no `id` attribute, `name` dirty. -/
def recNew : Record :=
  { model := schemaUsers
    attrs := [("name", .vStr "a")]
    dirty := ["name"]
    errors := []
    destroyed := false }

/-- A persisted record with `id = 5` and a locally modified `name`. -/
def recPersisted : Record :=
  { model := schemaUsers
    attrs := [("id", .vNum 5), ("name", .vStr "b")]
    dirty := ["name"]
    errors := []
    destroyed := false }

/-- A 200 response with a JSON body carrying `id = 5`. -/
def resp200 : Response :=
  { status := 200, contentType := some "application/json"
    jsonBody := some { id := some (.vNum 5) } }

/-- A 500 response with an HTML body. -/
def resp500 : Response :=
  { status := 500, contentType := some "text/html", jsonBody := none }

example : request resp500 = .silent := by decide
example : request resp200 = .callback none (some { id := some (.vNum 5) }) := by decide
example : recNew.isNew = true := by decide
example : recPersisted.isNew = false := by decide
example : recPersisted.url none = "/users/5" := by decide
example : recPersisted.saveOp [] true resp200
    = .done { recPersisted with dirty := [] }
        [.req "PUT" "/users/5", .emit "update" false, .callback none] := by decide
example : recNew.saveOp [] true resp200
    = .done { recNew with attrs := [("name", .vStr "a"), ("id", .vNum 5)],
                          dirty := [] }
        [.req "POST" "/users", .emit "save" false, .callback none] := by decide
example : recNew.saveOp [] true resp500
    = .done recNew [.req "POST" "/users"] := by decide

/-! ## Helper lemmas -/

/-- Folding a list of record transformers that each preserve `dirty`
preserves `dirty`. -/
theorem foldl_preserves_dirty (vs : List (Record → Record))
    (hpres : ∀ fn ∈ vs, ∀ s : Record, (fn s).dirty = s.dirty) :
    ∀ s : Record, (vs.foldl (fun acc fn => fn acc) s).dirty = s.dirty := by
  induction vs with
  | nil => intro s; rfl
  | cons f t ih =>
    intro s
    rw [List.foldl_cons,
        ih (fun g hg s2 => hpres g (List.mem_cons_of_mem f hg) s2) (f s)]
    exact hpres f (List.mem_cons_self f t) s

/-- `validate` leaves `dirty` unchanged when every validator does. -/
theorem validate_preserves_dirty (r : Record) (vs : List (Record → Record))
    (hpres : ∀ fn ∈ vs, ∀ s : Record, (fn s).dirty = s.dirty) :
    (r.validate vs).dirty = r.dirty := by
  unfold Record.validate
  exact foldl_preserves_dirty vs hpres { r with errors := [] }

/-- On a 2xx status the response handler invokes `fn(null, req)`. -/
theorem request_of_success (resp : Response) (hok : resp.status / 100 = 2) :
    ∃ B, request resp = .callback none B := by
  refine ⟨if String.mk (takeUntilSemicolon
      (resp.contentType.getD "").toList) == "application/json" then
      resp.jsonBody else none, ?_⟩
  simp only [request]
  rw [hok]
  rfl

/-- On a non-2xx status the response handler's `else` branch is empty:
the callback is never invoked. -/
theorem request_of_failure (resp : Response) (hbad : resp.status / 100 ≠ 2) :
    request resp = .silent := by
  simp [request, hbad]

/-- Shape of a successful `update`: dirty cleared, `update` emitted,
callback invoked with no error. -/
theorem updateOp_success (r : Record) (vs : List (Record → Record))
    (fnP : Bool) (resp : Response)
    (hval : (r.validate vs).errors = [])
    (hok : resp.status / 100 = 2) :
    r.updateOp vs fnP resp
      = .done { r.validate vs with dirty := [] }
          [.req "PUT" (r.url none),
           .emit "update" (r.validate vs).destroyed,
           .callback none] := by
  obtain ⟨B, hreq⟩ := request_of_success resp hok
  simp only [Record.updateOp]
  rw [hval, hreq]
  simp

/-- `update` never throws: its callback is defaulted before any use. -/
theorem updateOp_ne_thrown (r : Record) (vs : List (Record → Record))
    (fnP : Bool) (resp : Response) :
    r.updateOp vs fnP resp ≠ .thrown := by
  intro h
  simp only [Record.updateOp] at h
  repeat' split at h
  all_goals exact Outcome.noConfusion h

/-- `save` never throws: its callback is defaulted before any use,
and the delegated `update` defaults its own. -/
theorem saveOp_ne_thrown (r : Record) (vs : List (Record → Record))
    (fnP : Bool) (resp : Response) :
    r.saveOp vs fnP resp ≠ .thrown := by
  intro h
  by_cases hn : r.isNew = true
  · simp only [Record.saveOp, hn] at h
    repeat' split at h
    all_goals first
      | exact Outcome.noConfusion h
      | exact updateOp_ne_thrown r vs fnP resp h
  · simp only [Bool.not_eq_true] at hn
    simp only [Record.saveOp, hn] at h
    exact updateOp_ne_thrown r vs fnP resp h

/-- Shape of a successful `save` on a new record: dirty cleared, `save`
emitted, callback invoked with no error (primary key set when the
response carried a truthy JSON body). -/
theorem saveOp_new_success (r : Record) (vs : List (Record → Record))
    (fnP : Bool) (resp : Response)
    (hnew : r.isNew = true)
    (hval : (r.validate vs).errors = [])
    (hok : resp.status / 100 = 2) :
    ∃ r3, r.saveOp vs fnP resp
        = .done r3 [.req "POST" r.model.collectionUrl,
                    .emit "save" r3.destroyed, .callback none]
      ∧ r3.dirty = [] := by
  obtain ⟨B, hreq⟩ := request_of_success resp hok
  have hcond : ((r.validate vs).errors.length != 0) = false := by
    rw [hval]; rfl
  cases B with
  | none =>
    refine ⟨{ r.validate vs with dirty := [] }, ?_, rfl⟩
    simp [Record.saveOp, hnew, hcond, hreq]
  | some b =>
    refine ⟨{ (r.validate vs).primarySet b.id with dirty := [] }, ?_, rfl⟩
    simp [Record.saveOp, hnew, hcond, hreq]

/-- An empty dirty map means `changed()` returns `false`. -/
theorem changed_none_of_dirty_nil (x : Record) (hx : x.dirty = []) :
    x.changed = none := by
  simp [Record.changed, hx]

/-! ## Claim theorems -/

/-- Claim C1 (code bug, at the failing input): a valid new record is
saved against a transport answering 500. The response handler's
non-2xx branch is empty, so the completion callback is never invoked —
zero invocations rather than the specified exactly-once-with-error.
The record itself (primary key, dirty set) is indeed left unchanged. -/
theorem save_non2xx_callback_never_invoked :
    recNew.saveOp [] true resp500 = .done recNew [.req "POST" "/users"]
    ∧ callbackCalls (recNew.saveOp [] true resp500).traceOf = []
    ∧ (recNew.saveOp [] true resp500).recordOf.map Record.dirty
        = some recNew.dirty
    ∧ (recNew.saveOp [] true resp500).recordOf.map Record.primaryGet
        = some recNew.primaryGet := by
  decide

/-- Claim C2 (code bug, at the failing input): a successful `save` on a
persisted record delegates to `update`, which emits only the `update`
event — no `save` event fires, contradicting the source's own doc
comment ("`save` on updates and saves"). -/
theorem update_success_emits_only_update :
    emitNames (recPersisted.saveOp [] true resp200).traceOf = ["update"]
    ∧ "save" ∉ emitNames (recPersisted.saveOp [] true resp200).traceOf
    ∧ callbackCalls (recPersisted.saveOp [] true resp200).traceOf = [none] := by
  decide

/-- Claim C3: a record is new exactly when its primary-key attribute
(under the schema's configured key name) is absent from `attrs`. -/
theorem isNew_iff_primary_attr_absent (r : Record) :
    r.isNew = true ↔ r.get r.model.primaryKey = none := by
  unfold Record.isNew Record.has Record.get
  cases lookupAttr r.attrs r.model.primaryKey <;> simp

/-- Claim C4: immediately after a `save` or `update` whose validation
passes and whose transport request succeeds (2xx), the dirty set is
empty and `changed()` returns `false`, regardless of the prior dirty
set and of the response body. -/
theorem success_clears_dirty (r : Record) (vs : List (Record → Record))
    (fnP : Bool) (resp : Response)
    (hval : (r.validate vs).errors = [])
    (hok : resp.status / 100 = 2) :
    (∃ r1 t, r.saveOp vs fnP resp = .done r1 t
      ∧ r1.dirty = [] ∧ r1.changed = none)
    ∧ (∃ r2 t, r.updateOp vs fnP resp = .done r2 t
      ∧ r2.dirty = [] ∧ r2.changed = none) := by
  have hu := updateOp_success r vs fnP resp hval hok
  constructor
  · by_cases hn : r.isNew = true
    · obtain ⟨r3, heq, hd⟩ := saveOp_new_success r vs fnP resp hn hval hok
      exact ⟨r3, _, heq, hd, changed_none_of_dirty_nil r3 hd⟩
    · simp only [Bool.not_eq_true] at hn
      have hdel : r.saveOp vs fnP resp = r.updateOp vs fnP resp := by
        simp [Record.saveOp, hn]
      rw [hdel, hu]
      exact ⟨_, _, rfl, rfl, changed_none_of_dirty_nil _ rfl⟩
  · rw [hu]
    exact ⟨_, _, rfl, rfl, changed_none_of_dirty_nil _ rfl⟩

/-- Claim C5: when validation fails or the transport call fails
(non-2xx), `save` and `update` leave the dirty set exactly equal to
the dirty set before the call, assuming each registered validator only
registers errors (does not touch the dirty map). -/
theorem failure_preserves_dirty (r : Record) (vs : List (Record → Record))
    (fnP : Bool) (resp : Response)
    (hpres : ∀ fn ∈ vs, ∀ s : Record, (fn s).dirty = s.dirty)
    (hfail : (r.validate vs).errors ≠ [] ∨ resp.status / 100 ≠ 2) :
    (∃ r1 t, r.saveOp vs fnP resp = .done r1 t ∧ r1.dirty = r.dirty)
    ∧ (∃ r2 t, r.updateOp vs fnP resp = .done r2 t ∧ r2.dirty = r.dirty) := by
  have hvd := validate_preserves_dirty r vs hpres
  have hupd : ∃ r2 t, r.updateOp vs fnP resp = .done r2 t
      ∧ r2.dirty = r.dirty := by
    by_cases hv : (r.validate vs).errors = []
    · have hbad : resp.status / 100 ≠ 2 := by
        rcases hfail with hf | hf
        · exact absurd hv hf
        · exact hf
      have hreq := request_of_failure resp hbad
      have hcond : ((r.validate vs).errors.length != 0) = false := by
        rw [hv]; rfl
      refine ⟨r.validate vs, [.req "PUT" (r.url none)], ?_, hvd⟩
      simp [Record.updateOp, hcond, hreq]
    · have hlen : (r.validate vs).errors.length ≠ 0 :=
        fun h0 => hv (List.length_eq_zero.mp h0)
      have hcond : ((r.validate vs).errors.length != 0) = true := by
        simpa using hlen
      refine ⟨r.validate vs, [.callback (some "validation failed")], ?_, hvd⟩
      simp [Record.updateOp, hcond]
  refine ⟨?_, hupd⟩
  by_cases hn : r.isNew = true
  · by_cases hv : (r.validate vs).errors = []
    · have hbad : resp.status / 100 ≠ 2 := by
        rcases hfail with hf | hf
        · exact absurd hv hf
        · exact hf
      have hreq := request_of_failure resp hbad
      have hcond : ((r.validate vs).errors.length != 0) = false := by
        rw [hv]; rfl
      refine ⟨r.validate vs, [.req "POST" r.model.collectionUrl], ?_, hvd⟩
      simp [Record.saveOp, hn, hcond, hreq]
    · have hlen : (r.validate vs).errors.length ≠ 0 :=
        fun h0 => hv (List.length_eq_zero.mp h0)
      have hcond : ((r.validate vs).errors.length != 0) = true := by
        simpa using hlen
      refine ⟨r.validate vs, [.callback (some "validation failed")], ?_, hvd⟩
      simp [Record.saveOp, hn, hcond]
  · simp only [Bool.not_eq_true] at hn
    have hdel : r.saveOp vs fnP resp = r.updateOp vs fnP resp := by
      simp [Record.saveOp, hn]
    rw [hdel]
    exact hupd

/-- Claim C6: `validate` rebuilds `errors` from scratch and runs every
validator in registration order without halting: two validators that
each register one error leave exactly those two errors, in order,
whatever `errors` held before. -/
theorem validate_accumulates_errors_in_order (r : Record)
    (a1 m1 a2 m2 : String) :
    (r.validate [fun s => s.error a1 m1, fun s => s.error a2 m2]).errors
      = [{ attr := a1, message := m1 }, { attr := a2, message := m2 }] := rfl

/-- Claim C7: `destroy(cb)` on a new (never-saved) record invokes the
callback exactly once, with the non-null "not saved" error, issues no
transport request, and leaves the record unchanged. -/
theorem destroy_new_record_rejected (r : Record) (resp : Response)
    (hnew : r.isNew = true) :
    r.destroyOp true resp = .done r [.callback (some "not saved")]
    ∧ callbackCalls (r.destroyOp true resp).traceOf = [some "not saved"]
    ∧ requestCalls (r.destroyOp true resp).traceOf = [] := by
  have e : r.destroyOp true resp = .done r [.callback (some "not saved")] := by
    simp [Record.destroyOp, hnew]
  refine ⟨e, ?_, ?_⟩ <;> rw [e] <;> rfl

/-- Claim C7 witness: the concrete new record. -/
theorem destroy_new_record_rejected_witness :
    recNew.isNew = true
    ∧ (recNew.destroyOp true resp500 = .done recNew [.callback (some "not saved")]
      ∧ callbackCalls (recNew.destroyOp true resp500).traceOf = [some "not saved"]
      ∧ requestCalls (recNew.destroyOp true resp500).traceOf = []) :=
  ⟨rfl, destroy_new_record_rejected recNew resp500 rfl⟩

/-- Claim C8: a successful destroy of a persisted, not-yet-destroyed
record emits the `destroy` event with `destroyed` still observed as
`false`, then sets `destroyed := true`, then invokes the callback with
no error — in that trace order. -/
theorem destroy_success_emit_before_flag (r : Record) (fnP : Bool)
    (resp : Response) (hnew : r.isNew = false) (hdes : r.destroyed = false)
    (hok : resp.status / 100 = 2) :
    r.destroyOp fnP resp
      = .done { r with destroyed := true }
          [.req "DELETE" (r.url none), .emit "destroy" false, .callback none] := by
  obtain ⟨B, hreq⟩ := request_of_success resp hok
  simp [Record.destroyOp, hnew, hreq, hdes]

/-- Claim C8 witness: the concrete persisted record destroyed against a
200 response. -/
theorem destroy_success_emit_before_flag_witness :
    recPersisted.isNew = false ∧ recPersisted.destroyed = false
    ∧ resp200.status / 100 = 2
    ∧ recPersisted.destroyOp true resp200
        = .done { recPersisted with destroyed := true }
            [.req "DELETE" (recPersisted.url none),
             .emit "destroy" false, .callback none] :=
  ⟨rfl, rfl, rfl,
    destroy_success_emit_before_flag recPersisted true resp200 rfl rfl rfl⟩

/-- Claim C9: with a primary key present, `url()` is
`base + '/' + primaryKeyValue` and `url(suffix)` appends `'/' + suffix`. -/
theorem url_appends_primary_and_suffix (r : Record) (v : Value)
    (hv : r.primaryGet = some v) :
    r.url none = r.model.base ++ "/" ++ jsToString v
    ∧ ∀ p : String,
        r.url (some p) = r.model.base ++ "/" ++ jsToString v ++ "/" ++ p := by
  unfold Record.url
  rw [hv]
  exact ⟨rfl, fun p => rfl⟩

/-- Claim C9 witness: the concrete persisted record with `id = 5`. -/
theorem url_appends_primary_and_suffix_witness :
    recPersisted.primaryGet = some (.vNum 5)
    ∧ (recPersisted.url none
        = recPersisted.model.base ++ "/" ++ jsToString (.vNum 5)
      ∧ ∀ p : String,
          recPersisted.url (some p)
            = recPersisted.model.base ++ "/" ++ jsToString (.vNum 5) ++ "/" ++ p) :=
  ⟨rfl, url_appends_primary_and_suffix recPersisted (.vNum 5) rfl⟩

/-- Claim C10: calling `destroy` with no callback on a new record throws
synchronously (the not-saved guard invokes the still-undefined callback
before it is defaulted), while `save` and `update` default a missing
callback to a noop before any invocation and so never throw. -/
theorem missing_callback_throws_only_in_destroy :
    (∀ (r : Record) (resp : Response), r.isNew = true →
        r.destroyOp false resp = .thrown)
    ∧ (∀ (r : Record) (vs : List (Record → Record)) (resp : Response),
        r.saveOp vs false resp ≠ .thrown)
    ∧ (∀ (r : Record) (vs : List (Record → Record)) (resp : Response),
        r.updateOp vs false resp ≠ .thrown) := by
  refine ⟨?_, ?_, ?_⟩
  · intro r resp h
    simp [Record.destroyOp, h]
  · intro r vs resp
    exact saveOp_ne_thrown r vs false resp
  · intro r vs resp
    exact updateOp_ne_thrown r vs false resp

/-- Claim C10 witness: the concrete new record, destroyed without a
callback, throws. -/
theorem missing_callback_throws_only_in_destroy_witness :
    recNew.isNew = true ∧ recNew.destroyOp false resp500 = .thrown :=
  ⟨rfl, missing_callback_throws_only_in_destroy.1 recNew resp500 rfl⟩

/-- Claim C4 witness: the persisted record saved against the 200
response. -/
theorem success_clears_dirty_witness :
    (recPersisted.validate []).errors = [] ∧ resp200.status / 100 = 2
    ∧ ((∃ r1 t, recPersisted.saveOp [] true resp200 = .done r1 t
        ∧ r1.dirty = [] ∧ r1.changed = none)
      ∧ (∃ r2 t, recPersisted.updateOp [] true resp200 = .done r2 t
        ∧ r2.dirty = [] ∧ r2.changed = none)) :=
  ⟨rfl, rfl, success_clears_dirty recPersisted [] true resp200 rfl rfl⟩

/-- Claim C5 witness: the persisted record saved against the 500
response keeps its dirty set. -/
theorem failure_preserves_dirty_witness :
    (∀ fn ∈ ([] : List (Record → Record)), ∀ s : Record,
        (fn s).dirty = s.dirty)
    ∧ ((recPersisted.validate []).errors ≠ [] ∨ resp500.status / 100 ≠ 2)
    ∧ ((∃ r1 t, recPersisted.saveOp [] true resp500 = .done r1 t
        ∧ r1.dirty = recPersisted.dirty)
      ∧ (∃ r2 t, recPersisted.updateOp [] true resp500 = .done r2 t
        ∧ r2.dirty = recPersisted.dirty)) :=
  ⟨fun fn hfn => absurd hfn (List.not_mem_nil fn),
   Or.inr (by decide),
   failure_preserves_dirty recPersisted [] true resp500
     (fun fn hfn => absurd hfn (List.not_mem_nil fn))
     (Or.inr (by decide))⟩
